import Mathlib

/-!
Shallow embedding of the longhorn volume-manager core (Go) and its
controller registry / controller handle. Pure state and control flow are
translated from the Go source; external effects (orchestrator calls, wire
commands to the controller process, clocks, RFC3339 parsing) enter as
explicit parameters or oracle functions, and each operation returns a
trace of the calls it issued alongside its `Except` result, mirroring the
error values of the Go code. Times are natural numbers (an instant on a
discrete clock); `util.ParseTime` is abstracted as a `String → Option Nat`
parameter since the `util` package is not part of the sources.
-/

namespace OrcHorn

/-- Replica modes as reported by the controller (`types.ReplicaMode`). -/
inductive ReplicaMode where
  | rw
  | wo
  | err
deriving DecidableEq, Repr

/-- `types.InstanceInfo`: external process handle. -/
structure InstanceInfo where
  id : String := ""
  name : String := ""
  hostID : String := ""
  address : String := ""
  running : Bool := false
deriving DecidableEq, Repr

/-- `types.ReplicaInfo`: an instance plus mode and bad timestamp. -/
structure ReplicaInfo where
  instanceInfo : InstanceInfo := {}
  mode : ReplicaMode := .err
  badTimestamp : String := ""
deriving DecidableEq, Repr

/-- `types.ControllerInfo`: an instance (the controller process). -/
structure ControllerInfo where
  instanceInfo : InstanceInfo := {}
deriving DecidableEq, Repr

/-- `types.VolumeState`. -/
inductive VolumeState where
  | created
  | detached
  | faulted
  | healthy
  | degraded
deriving DecidableEq, Repr

/-- `types.VolumeInfo`: desired and observed state of one volume. The Go
`Replicas map[string]*ReplicaInfo` is an association list keyed by the
replica name. -/
structure VolumeInfo where
  name : String := ""
  size : Int := 0
  numberOfReplicas : Nat := 0
  controller : Option ControllerInfo := none
  replicas : List (String × ReplicaInfo) := []
  state : VolumeState := .created
  endpoint : String := ""
deriving DecidableEq, Repr

/-- `volumeState`'s `goodReplicaCount` loop: count of replicas with empty
`BadTimestamp`. -/
def goodReplicaCount (volume : VolumeInfo) : Nat :=
  volume.replicas.countP (fun r => r.2.badTimestamp = "")

/-- `manager.volumeState` translated from the Go `switch`. -/
def volumeState (volume : VolumeInfo) : VolumeState :=
  if goodReplicaCount volume = 0 then .faulted
  else if volume.controller = none then .detached
  else if goodReplicaCount volume = volume.numberOfReplicas then .healthy
  else .degraded

/-- `manager.completeVolumeState`: recompute `State`, refresh `Endpoint`
from the controller handle when the controller runs (the `Endpoint()` wire
call is the `endpointOf` oracle). -/
def completeVolumeState (endpointOf : VolumeInfo → String)
    (vol : VolumeInfo) : VolumeInfo :=
  let vol := { vol with state := volumeState vol }
  { vol with
    endpoint :=
      match vol.controller with
      | some c => if c.instanceInfo.running then endpointOf vol else ""
      | none => "" }

/-- `manager.Get`: orchestrator lookup then derived-state completion. -/
def managerGet (endpointOf : VolumeInfo → String)
    (orcVol : Except String (Option VolumeInfo)) :
    Except String (Option VolumeInfo) :=
  match orcVol with
  | .error e => .error ("failed to get volume: " ++ e)
  | .ok none => .ok none
  | .ok (some vol) => .ok (some (completeVolumeState endpointOf vol))

/-- `manager.List`: derived-state completion applied to each listed
volume. -/
def managerList (endpointOf : VolumeInfo → String)
    (orcVols : Except String (List VolumeInfo)) :
    Except String (List VolumeInfo) :=
  match orcVols with
  | .error e => .error e
  | .ok vols => .ok (vols.map (completeVolumeState endpointOf))

/-- The state-derivation rule in the specification's words (§4.5, rules
1–5 evaluated in order), to be compared with `volumeState` from the
source. -/
def volumeStateSpec (volume : VolumeInfo) : VolumeState :=
  let good := (volume.replicas.filter (fun r => r.2.badTimestamp = "")).length
  if good = 0 then .faulted
  else if volume.controller = none then .detached
  else if good = volume.numberOfReplicas then .healthy
  else .degraded

/-- A Go runtime panic reachable in the embedded code. -/
inductive GoPanic where
  | nilDeref
deriving DecidableEq, Repr

/-- Accumulator of the replica-partition loop in `manager.doAttach`:
the `replicas` map of live replicas and the tracked
`recentBadReplica` (with its key). -/
structure AttachPartition where
  live : List (String × ReplicaInfo) := []
  recentBad : Option (String × ReplicaInfo) := none
deriving DecidableEq, Repr

/-- The replica-partition loop of `manager.doAttach`, statement for
statement. A replica with empty `BadTimestamp` joins the live set;
otherwise its timestamp is parsed (unparseable: log and continue), then —
as in the source — `recentBadReplica.BadTimestamp` is parsed BEFORE the
`recentBadReplica == nil` test, so reaching that parse with
`recentBadReplica` still nil is a nil-pointer dereference. -/
def doAttachPartition (parseTime : String → Option Nat) :
    List (String × ReplicaInfo) → AttachPartition →
    Except GoPanic AttachPartition
  | [], acc => .ok acc
  | (k, replica) :: rest, acc =>
    if replica.badTimestamp = "" then
      doAttachPartition parseTime rest
        { acc with live := acc.live ++ [(k, replica)] }
    else
      match parseTime replica.badTimestamp with
      | none => doAttachPartition parseTime rest acc
      | some replicaBadTime =>
        match acc.recentBad with
        | none => .error .nilDeref
        | some (_, r0) =>
          match parseTime r0.badTimestamp with
          | none => doAttachPartition parseTime rest acc
          | some recentBadTime =>
            if recentBadTime < replicaBadTime then
              doAttachPartition parseTime rest
                { acc with recentBad := some (k, replica) }
            else
              doAttachPartition parseTime rest acc

/-- `manager.doAttach`'s starting-set selection: run the partition loop
over the volume's replicas, then promote `recentBadReplica` when the live
set is empty, failing when it is still empty. Outer `Except`: a runtime
panic; inner: the Go error return. -/
def doAttachReplicas (parseTime : String → Option Nat)
    (volume : VolumeInfo) :
    Except GoPanic (Except String (List (String × ReplicaInfo))) :=
  match doAttachPartition parseTime volume.replicas {} with
  | .error p => .error p
  | .ok acc =>
    let replicas :=
      match acc.live, acc.recentBad with
      | [], some kb => [kb]
      | l, _ => l
    if replicas = [] then
      .ok (.error ("no replicas to start the controller for volume '" ++
        volume.name ++ "'"))
    else
      .ok (.ok replicas)

/-- A controller handle (`controller.controller`): the volume name and
the URL of the wrapped controller process. -/
structure CtrlHandle where
  name : String
  url : String
deriving DecidableEq, Repr

/-- The private map owned by the `holdControllers` task, keyed by volume
name. -/
def Registry : Type := String → Option CtrlHandle

/-- One `Get` request serviced by `holdControllers`: reuse the cached
handle when its URL matches the volume's controller address, otherwise
install a fresh handle. Returns the handle and the updated map. -/
def holdControllersGet (cs : Registry) (name addr : String) :
    CtrlHandle × Registry :=
  match cs name with
  | some c =>
    if c.url = addr then (c, cs)
    else
      let c' : CtrlHandle := ⟨name, addr⟩
      (c', fun n => if n = name then some c' else cs n)
  | none =>
    let c' : CtrlHandle := ⟨name, addr⟩
    (c', fun n => if n = name then some c' else cs n)

/-- `controller.Get`: null for a null volume, null controller, or a
controller that is not running; otherwise the registry's handle for the
volume name. -/
def controllerGet (cs : Registry) (volume : Option VolumeInfo) :
    Option CtrlHandle × Registry :=
  match volume with
  | none => (none, cs)
  | some v =>
    match v.controller with
    | none => (none, cs)
    | some ctrl =>
      if ctrl.instanceInfo.running then
        let r := holdControllersGet cs v.name ctrl.instanceInfo.address
        (some r.1, r.2)
      else (none, cs)

/-- `strings.Fields`: the whitespace-delimited fields of a line, via an
accumulator sweep over the characters. -/
def fieldsAux : List Char → List Char → List String
  | [], [] => []
  | [], cur => [String.mk cur.reverse]
  | c :: cs, cur =>
    if c.isWhitespace then
      if cur.isEmpty then fieldsAux cs []
      else String.mk cur.reverse :: fieldsAux cs []
    else fieldsAux cs (c :: cur)

/-- Whitespace-delimited fields of a line (`strings.Fields`). -/
def goFields (s : String) : List String := fieldsAux s.toList []

/-- The `modes` map of the controller package. -/
def modes (t : String) : Option ReplicaMode :=
  if t = "RW" then some .rw
  else if t = "WO" then some .wo
  else if t = "ERR" then some .err
  else none

/-- `controller.parseReplica`: fewer than two whitespace-delimited fields
is a parse failure echoing the line; the first field is the address, the
second the mode, with unknown mode tokens mapped to ERR. -/
def parseReplica (s : String) : Except String ReplicaInfo :=
  match goFields s with
  | f0 :: f1 :: _ =>
    .ok { instanceInfo := { address := f0 }, mode := (modes f1).getD .err }
  | _ => .error ("cannot parse line `" ++ s ++ "`")

/-- `strings.HasPrefix`, over the characters. -/
def goStartsWith (s p : String) : Bool := p.toList.isPrefixOf s.toList

/-- `controller.GetReplicaStates` over the stream of `ls` output lines:
lines beginning with `ADDRESS` are skipped as the header; a parse failure
aborts with the offending line echoed in the wrapped error; otherwise the
parsed replicas in stream order. -/
def GetReplicaStates : List String → Except String (List ReplicaInfo)
  | [] => .ok []
  | s :: rest =>
    if goStartsWith s "ADDRESS" then GetReplicaStates rest
    else
      match parseReplica s with
      | .error e =>
        .error ("error parsing replica status from `" ++ s ++ "`: " ++ e)
      | .ok r => (GetReplicaStates rest).map (fun l => r :: l)

/-- Error values returned by `CheckController`: the wrapped
`ControllerError` (recognizable by the monitor loop), the aggregate of a
fan-out (`Errs`), or a plainly propagated error. -/
inductive CheckErr where
  | controllerError (e : String)
  | aggregate (errs : List String)
  | plain (e : String)
deriving DecidableEq, Repr

/-- The external calls issued by one `CheckController` run, with replicas
identified by address. -/
structure CheckCalls where
  removeReplicaCalls : List String := []
  markBadCalls : List String := []
  detachCalled : Bool := false
  createAddCalled : Nat := 0
  warned : Bool := false
deriving DecidableEq, Repr

/-- The error an oracle reports, as the singleton or empty list it
contributes to an aggregate (`nil` errors are skipped by the
collector). -/
def optErr : Option String → List String
  | some e => [e]
  | none => []

/-- The errors collected from the ERR-replica fan-out: for each ERR
replica, the `ctrl.RemoveReplica` error and the `orc.MarkBadReplica`
error, each contributed independently. -/
def errHandleErrs (removeErr markBadErr : String → Option String)
    (rs : List ReplicaInfo) : List String :=
  rs.foldr (fun r acc =>
    optErr (removeErr r.instanceInfo.address) ++
    optErr (markBadErr r.instanceInfo.address) ++ acc) []

/-- `manager.CheckController`. Inputs: the `GetReplicaStates` outcome and
oracles for the error outcome (none = success) of `ctrl.RemoveReplica`
and `orc.MarkBadReplica` per replica address, of `man.Detach`, and of
`createAndAddReplicaToController`; `addingReplicas` is
`addingReplicasCount(name, 0)`. Returns the calls issued and the Go error
return. -/
def checkController (states : Except String (List ReplicaInfo))
    (removeErr markBadErr : String → Option String)
    (numberOfReplicas addingReplicas : Nat)
    (detachRes createAddRes : Option String) :
    CheckCalls × Except CheckErr Unit :=
  match states with
  | .error e => ({}, .error (.controllerError e))
  | .ok replicas =>
    let goodReplicas := replicas.filter (fun r => r.mode = .rw)
    let woReplicas := replicas.filter (fun r => r.mode = .wo)
    let errReplicas := replicas.filter (fun r => r.mode = .err)
    let calls : CheckCalls :=
      { removeReplicaCalls := errReplicas.map (fun r => r.instanceInfo.address),
        markBadCalls := errReplicas.map (fun r => r.instanceInfo.address) }
    let errs := errHandleErrs removeErr markBadErr errReplicas
    if errs = [] then
      if goodReplicas = [] then
        ({ calls with detachCalled := true },
          match detachRes with
          | some e => .error (.plain e)
          | none => .ok ())
      else if goodReplicas.length < numberOfReplicas &&
          woReplicas.length == 0 && addingReplicas == 0 then
        match createAddRes with
        | some e => ({ calls with createAddCalled := 1 }, .error (.plain e))
        | none =>
          let warn : Bool :=
            goodReplicas.length + woReplicas.length > numberOfReplicas
          ({ calls with createAddCalled := 1, warned := warn }, .ok ())
      else
        let warn : Bool :=
          goodReplicas.length + woReplicas.length > numberOfReplicas
        ({ calls with warned := warn }, .ok ())
    else
      (calls, .error (.aggregate errs))

/-- `KeepBadReplicasPeriod`: `time.Hour * 2`, in nanoseconds as Go's
`time.Duration`. -/
def KeepBadReplicasPeriod : Nat := 2 * 3600 * 1000000000

/-- The calls issued by `manager.Cleanup`, with replicas identified by
their key in the volume's `Replicas` map, plus the collected errors. -/
structure CleanupCalls where
  stopCalls : List String := []
  removeCalls : List String := []
  errs : List String := []
deriving DecidableEq, Repr

/-- The fan-out body of `manager.Cleanup` for one bad replica: stop it
when it is running (spawned before the timestamp parse); parse the
timestamp — a failure goes to the error channel and skips only the
removal; remove the instance when `badTime + KeepBadReplicasPeriod` is
before `now`. `stopErr`/`removeErr` are oracles for the
`StopInstance`/`RemoveInstance` outcomes per replica key. -/
def cleanupReplica (parseTime : String → Option Nat) (now : Nat)
    (stopErr removeErr : String → Option String)
    (k : String) (replica : ReplicaInfo) : CleanupCalls :=
  let stopPart : CleanupCalls :=
    if replica.instanceInfo.running then
      { stopCalls := [k], errs := optErr (stopErr k) }
    else {}
  match parseTime replica.badTimestamp with
  | none =>
    { stopPart with
        errs := stopPart.errs ++
          ["fail to parse bad timestamp " ++ replica.badTimestamp] }
  | some badTime =>
    if badTime + KeepBadReplicasPeriod < now then
      { stopPart with
          removeCalls := [k]
          errs := stopPart.errs ++ optErr (removeErr k) }
    else stopPart

/-- The per-replica fan-out of `manager.Cleanup` over the volume's
replicas: replicas with an empty `BadTimestamp` are skipped; the calls
and errors of the rest are collected. -/
def cleanupReplicas (parseTime : String → Option Nat) (now : Nat)
    (stopErr removeErr : String → Option String) :
    List (String × ReplicaInfo) → CleanupCalls
  | [] => {}
  | (k, r) :: rest =>
    let acc := cleanupReplicas parseTime now stopErr removeErr rest
    if r.badTimestamp = "" then acc
    else
      let c := cleanupReplica parseTime now stopErr removeErr k r
      { stopCalls := c.stopCalls ++ acc.stopCalls
        removeCalls := c.removeCalls ++ acc.removeCalls
        errs := c.errs ++ acc.errs }

/-- `manager.Cleanup` on an existing volume: fan out over the replicas
and aggregate the errors (an empty aggregate is success). -/
def cleanupVolume (parseTime : String → Option Nat) (now : Nat)
    (stopErr removeErr : String → Option String) (volume : VolumeInfo) :
    CleanupCalls × Except (List String) Unit :=
  let calls :=
    cleanupReplicas parseTime now stopErr removeErr volume.replicas
  (calls, if calls.errs = [] then .ok () else .error calls.errs)

/-- The trace of one `manager.createFromBackup` run: the volume passed
to `doCreate` (its `Size` overwritten with the parsed backup size),
which steps were attempted, whether `cleanupFailedCreate` was scheduled,
and the Go return. -/
structure CreateFromBackupTrace where
  createdWith : Option VolumeInfo := none
  attachTried : Bool := false
  restoreTried : Bool := false
  detachTried : Bool := false
  cleanupScheduled : Bool := false
  result : Except String VolumeInfo
deriving Repr

/-- `manager.createFromBackup`. `parseVolumeSize` is the outcome of
`strconv.ParseInt(backup.VolumeSize, 10, 64)`; `doCreateF` the outcome
of `doCreate` on the size-overwritten request; `attachErr`,
`restoreErr`, `detachErr` the error outcomes of `doAttach`,
`BackupOps().Restore(backup.URL)` and `doDetach`. A parse or create
failure returns at once; attach, restore and detach failures defer
`cleanupFailedCreate` (which deletes the partially created volume). -/
def createFromBackup (parseVolumeSize : Except String Int)
    (doCreateF : VolumeInfo → Except String VolumeInfo)
    (attachErr restoreErr detachErr : Option String)
    (volume : VolumeInfo) : CreateFromBackupTrace :=
  match parseVolumeSize with
  | .error e =>
    { result := .error ("error parsing backup.VolumeSize: " ++ e) }
  | .ok size =>
    let volume := { volume with size := size }
    match doCreateF volume with
    | .error e => { createdWith := some volume, result := .error e }
    | .ok vol =>
      match attachErr with
      | some e =>
        { createdWith := some volume
          attachTried := true
          cleanupScheduled := true
          result :=
            .error ("failed to attach to restore the backup: " ++ e) }
      | none =>
        match restoreErr with
        | some e =>
          { createdWith := some volume
            attachTried := true
            restoreTried := true
            cleanupScheduled := true
            result := .error ("failed to restore the backup: " ++ e) }
        | none =>
          match detachErr with
          | some e =>
            { createdWith := some volume
              attachTried := true
              restoreTried := true
              detachTried := true
              cleanupScheduled := true
              result := .error
                ("failed to detach after restoring the backup: " ++ e) }
          | none =>
            { createdWith := some volume
              attachTried := true
              restoreTried := true
              detachTried := true
              result := .ok vol }

/-- `manager.Detach` given the `Get` outcome; `doDetachRes` is the
outcome of `doDetach` on the found volume. A missing volume is a warning
and a nil return. -/
def managerDetach (getRes : Except String (Option VolumeInfo))
    (doDetachRes : VolumeInfo → Option String) : Except String Unit :=
  match getRes with
  | .error e => .error e
  | .ok none => .ok ()
  | .ok (some v) =>
    match doDetachRes v with
    | some e => .error e
    | none => .ok ()

/-- The replica-removal loop of `manager.Delete`: abort on the first
`RemoveInstance` failure. -/
def removeReplicasLoop (removeErr : String → Option String) :
    List (String × ReplicaInfo) → Option String
  | [] => none
  | (k, _) :: rest =>
    match removeErr k with
    | some e => some ("error removing replica container: " ++ e)
    | none => removeReplicasLoop removeErr rest

/-- `manager.Delete` given the `Get` outcome: a missing volume is a
warning and a nil return; otherwise detach, remove every replica
instance, then delete the persisted volume record, aborting on the first
failure. -/
def managerDelete (getRes : Except String (Option VolumeInfo))
    (doDetachRes : VolumeInfo → Option String)
    (removeErr : String → Option String)
    (deleteVolumeErr : Option String) : Except String Unit :=
  match getRes with
  | .error e => .error e
  | .ok none => .ok ()
  | .ok (some v) =>
    match doDetachRes v with
    | some e => .error ("error detaching for delete: " ++ e)
    | none =>
      match removeReplicasLoop removeErr v.replicas with
      | some e => .error e
      | none =>
        match deleteVolumeErr with
        | some e => .error ("failed to delete volume: " ++ e)
        | none => .ok ()

/-- `manager.Controller`: `Get` the volume, then hand it to the
registry's `Get`; a lookup error propagates, otherwise the (possibly
null) handle is returned with a nil error. -/
def managerController (endpointOf : VolumeInfo → String) (cs : Registry)
    (orcVol : Except String (Option VolumeInfo)) :
    Except String (Option CtrlHandle) :=
  match managerGet endpointOf orcVol with
  | .error e => .error e
  | .ok vol => .ok (controllerGet cs vol).1

/-- A concrete running controller at address "u", for concrete
evaluations. -/
def ctrlU : ControllerInfo :=
  { instanceInfo := { address := "u", running := true } }

/-- A concrete volume "v1" fronted by `ctrlU`. -/
def volU : VolumeInfo := { name := "v1", controller := some ctrlU }

/-- A running replica marked bad at timestamp string "b1", for concrete
evaluations. -/
def badR1 : ReplicaInfo :=
  { instanceInfo := { running := true }, badTimestamp := "b1" }

/-- A running replica marked bad at timestamp string "b2", for concrete
evaluations. -/
def badR2 : ReplicaInfo :=
  { instanceInfo := { running := true }, badTimestamp := "b2" }

/-- A volume with the two bad replicas, for concrete evaluations. -/
def volCleanup : VolumeInfo :=
  { name := "v", replicas := [("r1", badR1), ("r2", badR2)] }

/-- A concrete parse oracle: "b1" is an instant 3 hours before the clock
value `nowCleanup`, "b2" 30 minutes before it; others unparseable. -/
def ptCleanup : String → Option Nat := fun s =>
  if s = "b1" then some 3600000000000
  else if s = "b2" then some 12600000000000 else none

/-- The clock value (4 hours, in nanoseconds) for the cleanup witness. -/
def nowCleanup : Nat := 14400000000000

/-- A single RW replica at address "a", for concrete evaluations. -/
def rwA : ReplicaInfo := { instanceInfo := { address := "a" }, mode := .rw }

/-- A single ERR replica at address "a", for concrete evaluations. -/
def errA : ReplicaInfo := { instanceInfo := { address := "a" }, mode := .err }

end OrcHorn

namespace OrcHorn

/-- C2: the state derived by `Get`/`List` matches the specification's
ordered rule; in particular a volume with zero good replicas is Faulted
even when a controller exists. -/
theorem c2_derived_state (endpointOf : VolumeInfo → String)
    (vol : VolumeInfo) (orcVols : List VolumeInfo) :
    (completeVolumeState endpointOf vol).state = volumeStateSpec vol ∧
    managerGet endpointOf (.ok (some vol)) =
      .ok (some (completeVolumeState endpointOf vol)) ∧
    (managerList endpointOf (.ok orcVols)).map
        (fun vs => vs.map (fun v => v.state)) =
      .ok (orcVols.map volumeStateSpec) ∧
    (vol.controller ≠ none → goodReplicaCount vol = 0 →
      volumeState vol = .faulted) := by
  have hstate : ∀ v : VolumeInfo,
      (completeVolumeState endpointOf v).state = volumeStateSpec v := by
    intro v
    simp only [completeVolumeState, volumeStateSpec, volumeState,
      goodReplicaCount, List.countP_eq_length_filter]
  refine ⟨hstate vol, rfl, ?_, ?_⟩
  · simp only [managerList, Except.map, List.map_map]
    exact congrArg Except.ok (List.map_congr_left (fun v _ => hstate v))
  · intro _ h0
    simp [volumeState, h0]

/-- C2 witness: a volume with a controller and zero good replicas is
Faulted, evaluated at a concrete volume. -/
theorem c2_derived_state_witness :
    volumeState
      { controller := some {},
        replicas := [("r", { badTimestamp := "t" })],
        numberOfReplicas := 1 } = .faulted :=
  (c2_derived_state (fun _ => "")
    { controller := some {},
      replicas := [("r", { badTimestamp := "t" })],
      numberOfReplicas := 1 } []).2.2.2 (by decide) (by decide)

/-- C1: contrary to the claim, a volume whose replicas all have a
non-empty `BadTimestamp` with at least one parseable timestamp does not
promote the most recent bad replica: the partition loop parses
`recentBadReplica.BadTimestamp` before the nil test and dereferences the
nil `recentBadReplica` at the first parseable bad replica. Evaluated at a
one-replica volume whose timestamp "100" parses (to instant 100) under a
concrete stand-in parser. -/
theorem c1_doAttach_nil_deref :
    doAttachReplicas (fun s => if s = "100" then some 100 else none)
      { name := "v1",
        replicas := [("r1", { badTimestamp := "100" })] } =
    .error .nilDeref := rfl

/-- C5: the registry's `Get` is null exactly for a null volume, null
controller, or non-running controller; otherwise it returns the handle
stored under the volume name, with the cached handle reused when its URL
matches the controller address and a fresh handle installed otherwise, so
the returned handle's URL equals the current controller address and other
registry entries are untouched. -/
theorem c5_registry_get (cs : Registry) (volume : Option VolumeInfo) :
    ((controllerGet cs volume).1 = none ↔
      (volume = none ∨ ∃ v, volume = some v ∧
        (v.controller = none ∨ ∃ c, v.controller = some c ∧
          c.instanceInfo.running = false))) ∧
    (∀ v c, volume = some v → v.controller = some c →
      c.instanceInfo.running = true →
      ∃ h, (controllerGet cs volume).1 = some h ∧
        h.url = c.instanceInfo.address ∧
        (controllerGet cs volume).2 v.name = some h ∧
        (∀ n, n ≠ v.name → (controllerGet cs volume).2 n = cs n) ∧
        (∀ h0, cs v.name = some h0 → h0.url = c.instanceInfo.address →
          h = h0 ∧ (controllerGet cs volume).2 = cs)) := by
  constructor
  · cases volume with
    | none => simp [controllerGet]
    | some v =>
      cases hc : v.controller with
      | none => simp [controllerGet, hc]
      | some c =>
        by_cases hr : c.instanceInfo.running <;>
          simp [controllerGet, hc, hr]
  · intro v c hv hc hr
    subst hv
    simp only [controllerGet, hc, hr, if_true]
    cases hcs : cs v.name with
    | none =>
      refine ⟨⟨v.name, c.instanceInfo.address⟩, ?_, rfl, ?_, ?_, ?_⟩
      · simp [holdControllersGet, hcs]
      · simp [holdControllersGet, hcs]
      · intro n hn
        simp [holdControllersGet, hcs, hn]
      · intro h0 h0eq
        exact Option.noConfusion h0eq
    | some c0 =>
      by_cases hurl : c0.url = c.instanceInfo.address
      · refine ⟨c0, ?_, hurl, ?_, ?_, ?_⟩
        · simp [holdControllersGet, hcs, hurl]
        · simp [holdControllersGet, hcs, hurl]
        · intro n _
          simp [holdControllersGet, hcs, hurl]
        · intro h0 h0eq _
          have he : c0 = h0 := by injection h0eq
          subst he
          exact ⟨rfl, by simp [holdControllersGet, hcs, hurl]⟩
      · refine ⟨⟨v.name, c.instanceInfo.address⟩, ?_, rfl, ?_, ?_, ?_⟩
        · simp [holdControllersGet, hcs, hurl]
        · simp [holdControllersGet, hcs, hurl]
        · intro n hn
          simp [holdControllersGet, hcs, hurl, hn]
        · intro h0 h0eq hu
          have he : c0 = h0 := by injection h0eq
          subst he
          exact absurd hu hurl

/-- C5 witness: a running controller at address "u" on an empty registry
yields a handle whose URL is "u". -/
theorem c5_registry_get_witness :
    ∃ h, (controllerGet (fun _ => none) (some volU)).1 = some h ∧
      h.url = "u" := by
  obtain ⟨h, h1, h2, -⟩ :=
    (c5_registry_get (fun _ => none) (some volU)).2 volU ctrlU rfl rfl rfl
  exact ⟨h, h1, h2⟩

/-- C6: parsing an `ls` line takes the first whitespace-delimited field
as the address and maps the second field "RW"/"WO"/"ERR"/anything-else to
RW/WO/ERR/ERR; fewer than two fields is a parse failure whose error
echoes the line and aborts `GetReplicaStates`; lines beginning with
`ADDRESS` are skipped as the header. -/
theorem c6_parse_replica (s f0 f1 : String) (fs lines : List String) :
    (goFields s = f0 :: f1 :: fs →
      parseReplica s = .ok
        { instanceInfo := { address := f0 },
          mode := if f1 = "RW" then .rw
            else if f1 = "WO" then .wo else .err }) ∧
    ((goFields s).length < 2 →
      parseReplica s = .error ("cannot parse line `" ++ s ++ "`")) ∧
    (goStartsWith s "ADDRESS" = true →
      GetReplicaStates (s :: lines) = GetReplicaStates lines) ∧
    (goStartsWith s "ADDRESS" = false → (goFields s).length < 2 →
      GetReplicaStates (s :: lines) =
        .error ("error parsing replica status from `" ++ s ++ "`: " ++
          ("cannot parse line `" ++ s ++ "`"))) := by
  have hshort : (goFields s).length < 2 →
      parseReplica s = .error ("cannot parse line `" ++ s ++ "`") := by
    intro hlen
    rcases hf : goFields s with - | ⟨a, - | ⟨b, t⟩⟩
    · simp [parseReplica, hf]
    · simp [parseReplica, hf]
    · rw [hf] at hlen
      simp only [List.length_cons] at hlen
      omega
  refine ⟨?_, hshort, ?_, ?_⟩
  · intro h
    simp only [parseReplica, h, modes]
    by_cases h1 : f1 = "RW"
    · simp [h1]
    · by_cases h2 : f1 = "WO"
      · simp [h1, h2]
      · by_cases h3 : f1 = "ERR" <;> simp [h1, h2, h3]
  · intro hh
    simp [GetReplicaStates, hh]
  · intro hh hlen
    simp [GetReplicaStates, hh, hshort hlen]

/-- C6 witness: a concrete well-formed line, an unknown-mode line, a
header line and a short line, evaluated concretely. -/
theorem c6_parse_replica_witness :
    parseReplica "10.0.0.1 WO extra" =
      .ok { instanceInfo := { address := "10.0.0.1" }, mode := .wo } ∧
    parseReplica "10.0.0.2 BOGUS" =
      .ok { instanceInfo := { address := "10.0.0.2" }, mode := .err } ∧
    GetReplicaStates ["ADDRESS MODE", "onlyonefield"] =
      .error ("error parsing replica status from `" ++ "onlyonefield" ++
        "`: " ++ ("cannot parse line `" ++ "onlyonefield" ++ "`")) := by
  refine ⟨?_, ?_, ?_⟩
  · have h := (c6_parse_replica "10.0.0.1 WO extra" "10.0.0.1" "WO"
      ["extra"] []).1 (by decide)
    simpa using h
  · have h := (c6_parse_replica "10.0.0.2 BOGUS" "10.0.0.2" "BOGUS"
      [] []).1 (by decide)
    simpa using h
  · have hh := (c6_parse_replica "ADDRESS MODE" "" "" [] ["onlyonefield"]).2.2.1
      (by decide)
    have h2 := (c6_parse_replica "onlyonefield" "" "" [] []).2.2.2
      (by decide) (by decide)
    rw [hh, h2]

/-- Any error an oracle reports for a fan-out member is collected in the
aggregate of the ERR-handling fan-out. -/
theorem mem_errHandleErrs (removeErr markBadErr : String → Option String)
    (rs : List ReplicaInfo) (r : ReplicaInfo) (hr : r ∈ rs) :
    (∀ e, removeErr r.instanceInfo.address = some e →
      e ∈ errHandleErrs removeErr markBadErr rs) ∧
    (∀ e, markBadErr r.instanceInfo.address = some e →
      e ∈ errHandleErrs removeErr markBadErr rs) := by
  induction rs with
  | nil => cases hr
  | cons a t ih =>
    have hstep : errHandleErrs removeErr markBadErr (a :: t) =
        optErr (removeErr a.instanceInfo.address) ++
        optErr (markBadErr a.instanceInfo.address) ++
        errHandleErrs removeErr markBadErr t := rfl
    rcases List.mem_cons.mp hr with rfl | hmem
    · constructor
      · intro e he
        rw [hstep, he]
        simp [optErr]
      · intro e he
        rw [hstep, he]
        simp [optErr]
    · obtain ⟨ih1, ih2⟩ := ih hmem
      constructor
      · intro e he
        rw [hstep]
        simp only [List.mem_append]
        exact Or.inr (ih1 e he)
      · intro e he
        rw [hstep]
        simp only [List.mem_append]
        exact Or.inr (ih2 e he)

/-- In every branch of `CheckController`, the recorded
`RemoveReplica`/`MarkBadReplica` calls are exactly the addresses of the
ERR replicas. -/
theorem checkController_err_calls (replicas : List ReplicaInfo)
    (removeErr markBadErr : String → Option String)
    (n adding : Nat) (dRes cRes : Option String) :
    (checkController (.ok replicas) removeErr markBadErr n adding dRes
        cRes).1.removeReplicaCalls =
      (replicas.filter (fun r => r.mode = .err)).map
        (fun r => r.instanceInfo.address) ∧
    (checkController (.ok replicas) removeErr markBadErr n adding dRes
        cRes).1.markBadCalls =
      (replicas.filter (fun r => r.mode = .err)).map
        (fun r => r.instanceInfo.address) := by
  cases dRes <;> cases cRes <;> simp only [checkController] <;>
    split_ifs <;> exact ⟨rfl, rfl⟩

/-- C3: a `GetReplicaStates` failure is returned wrapped as a
ControllerError; for every replica the controller reports with mode ERR,
both `ctrl.RemoveReplica` and `orc.MarkBadReplica` are attempted, their
errors are collected independently, and a non-empty collection is
returned aggregated. -/
theorem c3_check_controller_err_handling (replicas : List ReplicaInfo)
    (removeErr markBadErr : String → Option String)
    (n adding : Nat) (dRes cRes : Option String) (e0 : String) :
    (checkController (.error e0) removeErr markBadErr n adding dRes cRes =
      ({}, .error (.controllerError e0))) ∧
    (∀ r ∈ replicas, r.mode = .err →
      r.instanceInfo.address ∈
        (checkController (.ok replicas) removeErr markBadErr n adding
          dRes cRes).1.removeReplicaCalls ∧
      r.instanceInfo.address ∈
        (checkController (.ok replicas) removeErr markBadErr n adding
          dRes cRes).1.markBadCalls ∧
      (∀ e, removeErr r.instanceInfo.address = some e →
        e ∈ errHandleErrs removeErr markBadErr
          (replicas.filter (fun x => x.mode = .err))) ∧
      (∀ e, markBadErr r.instanceInfo.address = some e →
        e ∈ errHandleErrs removeErr markBadErr
          (replicas.filter (fun x => x.mode = .err)))) ∧
    (errHandleErrs removeErr markBadErr
        (replicas.filter (fun x => x.mode = .err)) ≠ [] →
      (checkController (.ok replicas) removeErr markBadErr n adding
        dRes cRes).2 =
        .error (.aggregate (errHandleErrs removeErr markBadErr
          (replicas.filter (fun x => x.mode = .err))))) := by
  obtain ⟨hrm, hmb⟩ := checkController_err_calls replicas removeErr
    markBadErr n adding dRes cRes
  refine ⟨rfl, ?_, ?_⟩
  · intro r hr hmode
    have hrf : r ∈ replicas.filter (fun x => x.mode = .err) :=
      List.mem_filter.mpr ⟨hr, by simp [hmode]⟩
    obtain ⟨h1, h2⟩ := mem_errHandleErrs removeErr markBadErr
      (replicas.filter (fun x => x.mode = .err)) r hrf
    refine ⟨?_, ?_, h1, h2⟩
    · rw [hrm]
      exact List.mem_map_of_mem _ hrf
    · rw [hmb]
      exact List.mem_map_of_mem _ hrf
  · intro hne
    simp only [checkController]
    rw [if_neg hne]

/-- C3 witness: one ERR replica at address "a" whose `RemoveReplica`
fails with "re": both calls are attempted and "re" is aggregated. -/
theorem c3_check_controller_err_handling_witness :
    "a" ∈ (checkController (.ok [errA]) (fun _ => some "re")
        (fun _ => none) 2 0 none none).1.removeReplicaCalls ∧
    "a" ∈ (checkController (.ok [errA]) (fun _ => some "re")
        (fun _ => none) 2 0 none none).1.markBadCalls ∧
    (checkController (.ok [errA]) (fun _ => some "re") (fun _ => none)
        2 0 none none).2 = .error (.aggregate ["re"]) := by
  obtain ⟨-, hmem, hagg⟩ := c3_check_controller_err_handling
    [errA] (fun _ => some "re") (fun _ => none) 2 0 none none "boom"
  obtain ⟨m1, m2, -, -⟩ := hmem errA (List.mem_singleton.mpr rfl) rfl
  refine ⟨m1, m2, ?_⟩
  have := hagg (by decide)
  simpa using this

/-- C4: with the ERR fan-out reporting no error, `CheckController`
detaches exactly when no RW replica remains; otherwise it starts exactly
one `createAndAddReplicaToController` exactly when the RW count is below
`NumberOfReplicas`, the WO count is zero, and no addition is in flight;
and when RW+WO exceeds `NumberOfReplicas` it only warns: no detach, no
replica addition, and no removal beyond the ERR processing. -/
theorem c4_check_controller_repair (replicas : List ReplicaInfo)
    (removeErr markBadErr : String → Option String)
    (n adding : Nat) (dRes cRes : Option String)
    (hclean : errHandleErrs removeErr markBadErr
      (replicas.filter (fun r => r.mode = .err)) = []) :
    ((checkController (.ok replicas) removeErr markBadErr n adding dRes
        cRes).1.detachCalled = true ↔
      (replicas.filter (fun r => r.mode = .rw)).length = 0) ∧
    ((checkController (.ok replicas) removeErr markBadErr n adding dRes
        cRes).1.createAddCalled =
      if (replicas.filter (fun r => r.mode = .rw)).length ≠ 0 ∧
          (replicas.filter (fun r => r.mode = .rw)).length < n ∧
          (replicas.filter (fun r => r.mode = .wo)).length = 0 ∧
          adding = 0 then 1 else 0) ∧
    ((replicas.filter (fun r => r.mode = .rw)).length ≠ 0 →
      (replicas.filter (fun r => r.mode = .rw)).length +
          (replicas.filter (fun r => r.mode = .wo)).length > n →
      (checkController (.ok replicas) removeErr markBadErr n adding dRes
          cRes).1.warned = true ∧
      (checkController (.ok replicas) removeErr markBadErr n adding dRes
          cRes).1.detachCalled = false ∧
      (checkController (.ok replicas) removeErr markBadErr n adding dRes
          cRes).1.createAddCalled = 0 ∧
      (checkController (.ok replicas) removeErr markBadErr n adding dRes
          cRes).1.removeReplicaCalls =
        (replicas.filter (fun r => r.mode = .err)).map
          (fun r => r.instanceInfo.address)) := by
  simp only [checkController]
  rw [if_pos hclean]
  by_cases hg : replicas.filter (fun r => r.mode = .rw) = []
  · rw [if_pos hg]
    refine ⟨by simp [hg], by simp [hg, List.length_eq_zero], ?_⟩
    intro hne _
    exact absurd (by simp [hg, List.length_eq_zero]) hne
  · rw [if_neg hg]
    have hgn : (replicas.filter (fun r => r.mode = .rw)).length ≠ 0 := by
      simpa [List.length_eq_zero] using hg
    by_cases hgate :
        (decide ((replicas.filter (fun r => r.mode = .rw)).length < n) &&
          ((replicas.filter (fun r => r.mode = .wo)).length == 0) &&
          (adding == 0)) = true
    · rw [if_pos hgate]
      simp only [Bool.and_eq_true, decide_eq_true_eq, beq_iff_eq] at hgate
      obtain ⟨⟨hlt, hwo⟩, hadd⟩ := hgate
      have hcond : (replicas.filter (fun r => r.mode = .rw)).length ≠ 0 ∧
          (replicas.filter (fun r => r.mode = .rw)).length < n ∧
          (replicas.filter (fun r => r.mode = .wo)).length = 0 ∧
          adding = 0 := ⟨hgn, hlt, hwo, hadd⟩
      cases cRes with
      | some e =>
        refine ⟨by simp [List.length_eq_zero, hg], by rw [if_pos hcond], ?_⟩
        intro _ hover
        omega
      | none =>
        refine ⟨by simp [List.length_eq_zero, hg], by rw [if_pos hcond], ?_⟩
        intro _ hover
        omega
    · rw [if_neg hgate]
      simp only [Bool.and_eq_true, decide_eq_true_eq, beq_iff_eq,
        not_and] at hgate
      refine ⟨by simp [List.length_eq_zero, hg], ?_, ?_⟩
      · split_ifs with hcond
        · obtain ⟨-, hlt, hwo, hadd⟩ := hcond
          exact absurd hadd (hgate ⟨hlt, hwo⟩)
        · rfl
      · intro _ hover
        refine ⟨by simpa using hover, rfl, rfl, rfl⟩

/-- C4 witness: one RW replica, `NumberOfReplicas = 2`, no WO replica and
no in-flight addition: exactly one repair replica is started. -/
theorem c4_check_controller_repair_witness :
    (checkController (.ok [rwA]) (fun _ => none) (fun _ => none)
        2 0 none none).1.createAddCalled = 1 ∧
    (checkController (.ok [rwA]) (fun _ => none) (fun _ => none)
        2 0 none none).1.detachCalled = false := by
  obtain ⟨hd, hc, -⟩ := c4_check_controller_repair
    [rwA] (fun _ => none) (fun _ => none) 2 0 none none rfl
  constructor
  · rw [hc]
    decide
  · by_contra hfalse
    have htrue : (checkController (.ok [rwA]) (fun _ => none)
        (fun _ => none) 2 0 none none).1.detachCalled = true := by
      cases hdc : (checkController (.ok [rwA]) (fun _ => none)
        (fun _ => none) 2 0 none none).1.detachCalled
      · exact absurd hdc hfalse
      · rfl
    have h0 := hd.mp htrue
    simp [rwA] at h0

/-- The calls `cleanupReplica` issues for one bad replica: a stop exactly
when the replica runs, a removal exactly when the timestamp parses to an
instant older than the retention period, and a parse error collected when
it does not parse. -/
theorem cleanupReplica_calls (pt : String → Option Nat) (now : Nat)
    (se re : String → Option String) (k : String) (r : ReplicaInfo) :
    (cleanupReplica pt now se re k r).stopCalls =
      (if r.instanceInfo.running = true then [k] else []) ∧
    (cleanupReplica pt now se re k r).removeCalls =
      (match pt r.badTimestamp with
       | none => []
       | some t => if t + KeepBadReplicasPeriod < now then [k] else []) ∧
    (pt r.badTimestamp = none →
      ("fail to parse bad timestamp " ++ r.badTimestamp) ∈
        (cleanupReplica pt now se re k r).errs) := by
  unfold cleanupReplica
  cases hp : pt r.badTimestamp <;>
    by_cases hr : r.instanceInfo.running <;>
    simp [hr, hp] <;> split_ifs <;> simp

/-- Replica keys recorded by the cleanup fan-out all come from the
replica map. -/
theorem cleanupReplicas_calls_keys (pt : String → Option Nat)
    (now : Nat) (se re : String → Option String)
    (l : List (String × ReplicaInfo)) (k : String) :
    (k ∈ (cleanupReplicas pt now se re l).stopCalls →
      k ∈ l.map Prod.fst) ∧
    (k ∈ (cleanupReplicas pt now se re l).removeCalls →
      k ∈ l.map Prod.fst) := by
  induction l with
  | nil => simp [cleanupReplicas]
  | cons a t ih =>
    obtain ⟨ka, ra⟩ := a
    obtain ⟨hc1, hc2, -⟩ := cleanupReplica_calls pt now se re ka ra
    by_cases hb : ra.badTimestamp = ""
    · constructor
      · intro hmem
        rw [cleanupReplicas, if_pos hb] at hmem
        exact List.mem_cons_of_mem _ (ih.1 hmem)
      · intro hmem
        rw [cleanupReplicas, if_pos hb] at hmem
        exact List.mem_cons_of_mem _ (ih.2 hmem)
    · constructor
      · intro hmem
        rw [cleanupReplicas, if_neg hb] at hmem
        rcases List.mem_append.mp hmem with hh | ht
        · rw [hc1] at hh
          split_ifs at hh <;> simp at hh
          subst hh
          exact List.mem_cons_self _ _
        · exact List.mem_cons_of_mem _ (ih.1 ht)
      · intro hmem
        rw [cleanupReplicas, if_neg hb] at hmem
        rcases List.mem_append.mp hmem with hh | ht
        · rw [hc2] at hh
          rcases hp : pt ra.badTimestamp with - | t0 <;> rw [hp] at hh <;>
            dsimp only at hh
          · simp at hh
          · split_ifs at hh <;> simp at hh
            subst hh
            exact List.mem_cons_self _ _
        · exact List.mem_cons_of_mem _ (ih.2 ht)

/-- C7: for every replica of the volume with a non-empty `BadTimestamp`,
`Cleanup` stops it exactly when it is running, removes its instance
exactly when its parsed timestamp plus `KeepBadReplicasPeriod` is before
now, and collects a parse error when the timestamp does not parse —
independently of what happens to the other replicas. -/
theorem c7_cleanup (parseTime : String → Option Nat) (now : Nat)
    (stopErr removeErr : String → Option String) (volume : VolumeInfo)
    (hkeys : (volume.replicas.map Prod.fst).Nodup) :
    ∀ k r, (k, r) ∈ volume.replicas → r.badTimestamp ≠ "" →
      (k ∈ (cleanupVolume parseTime now stopErr removeErr
          volume).1.stopCalls ↔ r.instanceInfo.running = true) ∧
      (k ∈ (cleanupVolume parseTime now stopErr removeErr
          volume).1.removeCalls ↔
        ∃ t, parseTime r.badTimestamp = some t ∧
          t + KeepBadReplicasPeriod < now) ∧
      (parseTime r.badTimestamp = none →
        ("fail to parse bad timestamp " ++ r.badTimestamp) ∈
          (cleanupVolume parseTime now stopErr removeErr
            volume).1.errs) := by
  have main : ∀ l : List (String × ReplicaInfo),
      (l.map Prod.fst).Nodup →
      ∀ k r, (k, r) ∈ l → r.badTimestamp ≠ "" →
      (k ∈ (cleanupReplicas parseTime now stopErr removeErr l).stopCalls ↔
        r.instanceInfo.running = true) ∧
      (k ∈ (cleanupReplicas parseTime now stopErr removeErr
          l).removeCalls ↔
        ∃ t, parseTime r.badTimestamp = some t ∧
          t + KeepBadReplicasPeriod < now) ∧
      (parseTime r.badTimestamp = none →
        ("fail to parse bad timestamp " ++ r.badTimestamp) ∈
          (cleanupReplicas parseTime now stopErr removeErr l).errs) := by
    intro l
    induction l with
    | nil => intro _ k r hm; cases hm
    | cons a t ih =>
      obtain ⟨ka, ra⟩ := a
      intro hnd k r hm hbad
      simp only [List.map_cons, List.nodup_cons] at hnd
      obtain ⟨hka, hndt⟩ := hnd
      obtain ⟨hc1, hc2, hc3⟩ := cleanupReplica_calls parseTime now
        stopErr removeErr ka ra
      rcases List.mem_cons.mp hm with he | hmt
      · injection he with hek her
        subst hek
        subst her
        have hnots : k ∉ (cleanupReplicas parseTime now stopErr
            removeErr t).stopCalls := fun hmem =>
          hka ((cleanupReplicas_calls_keys parseTime now stopErr
            removeErr t k).1 hmem)
        have hnotr : k ∉ (cleanupReplicas parseTime now stopErr
            removeErr t).removeCalls := fun hmem =>
          hka ((cleanupReplicas_calls_keys parseTime now stopErr
            removeErr t k).2 hmem)
        refine ⟨?_, ?_, ?_⟩
        · rw [cleanupReplicas, if_neg hbad]
          simp only [List.mem_append]
          rw [hc1]
          constructor
          · rintro (hh | hh)
            · split_ifs at hh with hrun
              · exact hrun
              · simp at hh
            · exact absurd hh hnots
          · intro hrun
            rw [if_pos hrun]
            exact Or.inl (List.mem_singleton.mpr rfl)
        · rw [cleanupReplicas, if_neg hbad]
          simp only [List.mem_append]
          rw [hc2]
          constructor
          · rintro (hh | hh)
            · rcases hp : parseTime r.badTimestamp with - | t0 <;>
                rw [hp] at hh <;> dsimp only at hh
              · simp at hh
              · split_ifs at hh with hlt
                · exact ⟨t0, rfl, hlt⟩
                · simp at hh
            · exact absurd hh hnotr
          · rintro ⟨t0, hp, hlt⟩
            rw [hp]
            dsimp only
            rw [if_pos hlt]
            exact Or.inl (List.mem_singleton.mpr rfl)
        · intro hp
          rw [cleanupReplicas, if_neg hbad]
          simp only [List.mem_append]
          exact Or.inl (hc3 hp)
      · have hk : k ∈ t.map Prod.fst :=
          List.mem_map_of_mem Prod.fst hmt
        have hkka : k ≠ ka := fun he2 => hka (he2 ▸ hk)
        obtain ⟨ih1, ih2, ih3⟩ := ih hndt k r hmt hbad
        by_cases hb : ra.badTimestamp = ""
        · rw [cleanupReplicas, if_pos hb]
          exact ⟨ih1, ih2, ih3⟩
        · refine ⟨?_, ?_, ?_⟩
          · rw [cleanupReplicas, if_neg hb]
            simp only [List.mem_append]
            rw [hc1]
            constructor
            · rintro (hh | hh)
              · split_ifs at hh <;> simp at hh
                exact absurd hh hkka
              · exact ih1.mp hh
            · intro hrun
              exact Or.inr (ih1.mpr hrun)
          · rw [cleanupReplicas, if_neg hb]
            simp only [List.mem_append]
            rw [hc2]
            constructor
            · rintro (hh | hh)
              · rcases hp : parseTime ra.badTimestamp with - | t0 <;>
                  rw [hp] at hh <;> dsimp only at hh
                · simp at hh
                · split_ifs at hh <;> simp at hh
                  exact absurd hh hkka
              · exact ih2.mp hh
            · intro hex
              exact Or.inr (ih2.mpr hex)
          · intro hp
            rw [cleanupReplicas, if_neg hb]
            simp only [List.mem_append]
            exact Or.inr (ih3 hp)
  exact main volume.replicas hkeys

/-- C7 witness: the 3-hour-old bad replica is stopped and removed, the
30-minute-old bad replica is stopped but not removed, at a 4-hour clock
with a 2-hour retention period. -/
theorem c7_cleanup_witness :
    "r1" ∈ (cleanupVolume ptCleanup nowCleanup (fun _ => none)
      (fun _ => none) volCleanup).1.stopCalls ∧
    "r2" ∈ (cleanupVolume ptCleanup nowCleanup (fun _ => none)
      (fun _ => none) volCleanup).1.stopCalls ∧
    "r1" ∈ (cleanupVolume ptCleanup nowCleanup (fun _ => none)
      (fun _ => none) volCleanup).1.removeCalls ∧
    "r2" ∉ (cleanupVolume ptCleanup nowCleanup (fun _ => none)
      (fun _ => none) volCleanup).1.removeCalls := by
  have h1 := c7_cleanup ptCleanup nowCleanup (fun _ => none)
    (fun _ => none) volCleanup (by decide) "r1" badR1 (by decide)
    (by decide)
  have h2 := c7_cleanup ptCleanup nowCleanup (fun _ => none)
    (fun _ => none) volCleanup (by decide) "r2" badR2 (by decide)
    (by decide)
  refine ⟨h1.1.mpr rfl, h2.1.mpr rfl,
    h1.2.1.mpr ⟨3600000000000, rfl, by decide⟩, ?_⟩
  intro hmem
  obtain ⟨t0, hp, hlt⟩ := h2.2.1.mp hmem
  have ht0 : t0 = 12600000000000 := by
    have : ptCleanup badR2.badTimestamp = some 12600000000000 := rfl
    rw [this] at hp
    exact (Option.some.injEq .. ▸ hp).symm
  subst ht0
  revert hlt
  decide

/-- C8 counterexample: when `doCreate` fails, `createFromBackup` returns
the error but schedules no `cleanupFailedCreate`, so "the failure of any
of these steps schedules cleanupFailedCreate" fails at the create
step. -/
theorem c8_create_failure_no_cleanup :
    (createFromBackup (.ok 7) (fun _ => .error "create failed")
      none none none { name := "v2" }).cleanupScheduled = false ∧
    (createFromBackup (.ok 7) (fun _ => .error "create failed")
      none none none { name := "v2" }).result = .error "create failed" :=
  ⟨rfl, rfl⟩

/-- C8 (amended): `createFromBackup` parses the backup size (failing on
a malformed size without scheduling cleanup), overwrites the requested
`Size` in the volume passed to `doCreate`, then creates, attaches,
restores and detaches in order; an attach, restore or detach failure
schedules `cleanupFailedCreate` and returns the wrapped error, while a
parse or create failure returns its error without scheduling cleanup. -/
theorem c8_create_from_backup
    (doCreateF : VolumeInfo → Except String VolumeInfo)
    (attachErr restoreErr detachErr : Option String)
    (volume : VolumeInfo) (e : String) (size : Int) :
    (createFromBackup (.error e) doCreateF attachErr restoreErr
        detachErr volume =
      { result := .error ("error parsing backup.VolumeSize: " ++ e) }) ∧
    ((createFromBackup (.ok size) doCreateF attachErr restoreErr
        detachErr volume).createdWith =
      some { volume with size := size }) ∧
    (∀ e0, doCreateF { volume with size := size } = .error e0 →
      (createFromBackup (.ok size) doCreateF attachErr restoreErr
          detachErr volume).cleanupScheduled = false ∧
      (createFromBackup (.ok size) doCreateF attachErr restoreErr
          detachErr volume).result = .error e0) ∧
    (∀ vol, doCreateF { volume with size := size } = .ok vol →
      ((createFromBackup (.ok size) doCreateF attachErr restoreErr
          detachErr volume).cleanupScheduled = true ↔
        (attachErr ≠ none ∨ restoreErr ≠ none ∨ detachErr ≠ none)) ∧
      ((createFromBackup (.ok size) doCreateF attachErr restoreErr
          detachErr volume).result = .ok vol ↔
        (attachErr = none ∧ restoreErr = none ∧ detachErr = none))) := by
  refine ⟨rfl, ?_, ?_, ?_⟩
  · cases hdc : doCreateF { volume with size := size } with
    | error e0 => simp [createFromBackup, hdc]
    | ok vol =>
      cases attachErr <;> cases restoreErr <;> cases detachErr <;>
        simp [createFromBackup, hdc]
  · intro e0 hdc
    constructor <;> simp [createFromBackup, hdc]
  · intro vol hdc
    cases attachErr <;> cases restoreErr <;> cases detachErr <;>
      constructor <;> simp [createFromBackup, hdc]

/-- C8 witness: a restore failure on an otherwise clean run schedules
`cleanupFailedCreate`. -/
theorem c8_create_from_backup_witness :
    (createFromBackup (.ok 7) (fun v => .ok v) none (some "rf") none
      { name := "v2" }).cleanupScheduled = true := by
  have h := (c8_create_from_backup (fun v => .ok v) none (some "rf")
    none { name := "v2" } "x" 7).2.2.2
    ({ name := "v2", size := 7 } : VolumeInfo) rfl
  exact h.1.mpr (Or.inr (Or.inl (by simp)))

/-- C9: `Delete` and `Detach` on a volume that does not exist both
return success (only a warning is logged); in particular two successive
detaches of a missing volume both succeed, whatever the per-step
oracles. -/
theorem c9_missing_volume_silent
    (g1 g2 : Except String (Option VolumeInfo))
    (h1 : g1 = .ok none) (h2 : g2 = .ok none)
    (dd : VolumeInfo → Option String)
    (re : String → Option String) (de : Option String) :
    managerDetach g1 dd = .ok () ∧ managerDetach g2 dd = .ok () ∧
    managerDelete g1 dd re de = .ok () := by
  subst h1
  subst h2
  exact ⟨rfl, rfl, rfl⟩

/-- C9 witness: the missing-volume detach and delete, evaluated
concretely. -/
theorem c9_missing_volume_silent_witness :
    managerDetach (.ok none) (fun _ => none) = .ok () ∧
    managerDelete (.ok none) (fun _ => none) (fun _ => none) none =
      .ok () := by
  obtain ⟨a, -, c⟩ := c9_missing_volume_silent (.ok none) (.ok none)
    rfl rfl (fun _ => none) (fun _ => none) none
  exact ⟨a, c⟩

/-- C10: for an existing volume whose controller is null or not running,
`manager.Controller` returns a null handle together with a nil error. -/
theorem c10_controller_null_no_error (endpointOf : VolumeInfo → String)
    (cs : Registry) (v : VolumeInfo)
    (h : v.controller = none ∨
      ∃ c, v.controller = some c ∧ c.instanceInfo.running = false) :
    managerController endpointOf cs (.ok (some v)) = .ok none := by
  have hc : (completeVolumeState endpointOf v).controller =
      v.controller := rfl
  simp only [managerController, managerGet]
  rcases h with h | ⟨c, hcc, hr⟩
  · simp [controllerGet, hc, h]
  · simp [controllerGet, hc, hcc, hr]

/-- C10 witness: a detached volume (no controller) yields a null handle
and a nil error. -/
theorem c10_controller_null_no_error_witness :
    managerController (fun _ => "") (fun _ => none)
      (.ok (some { name := "v1" })) = .ok none :=
  c10_controller_null_no_error (fun _ => "") (fun _ => none)
    { name := "v1" } (Or.inl rfl)

end OrcHorn
